import Mathlib

/-!
Shallow embedding of the Location-service repository core
(`app/services/cache.py`, `app/services/geocoding.py`,
`app/services/validation.py`, `app/api/v1/location.py`,
`app/models/request.py`, `app/models/response.py`).

Conventions of the embedding:
* Python floats are modelled as rationals (`ℚ`); the coordinate values in
  the claims have at most five decimal digits, far away from any
  binary-rounding boundary, so rational arithmetic agrees with the float
  arithmetic of the source at every input used here.
* Wall-clock instants (`datetime.utcnow()`) are modelled as natural numbers
  counting seconds, passed explicitly to every operation that reads the
  clock.  `timedelta(seconds=ttl)` becomes `+ ttl`.
* The process-wide mutable cache dict `_cache_store` is threaded
  explicitly: operations take a store and return the updated store.
* Optional strings use `Option String`; Python truthiness (both `None`
  and `""` are falsy) is modelled by `pyTruthy` below.
* Provider HTTP calls are modelled by an environment of oracles
  (`Env`): for each provider a function from the request parameters to an
  outcome — a parsed payload, an affirmative "no result", or a raised
  error.  Fields `GOOGLE_MAPS_API_KEY` / `MAPBOX_ACCESS_TOKEN` model the
  truthiness of the corresponding settings.
* `timestamp` / `requestId` / `lastUpdated` metadata fields are omitted:
  no claim mentions them, and on a cache hit they are reconstructed from
  the stored dict just like every other field.
-/

/-- `app/models/response.py` `AccuracyLevel`. -/
inductive AccuracyLevel
  | high
  | medium
  | low
  | approximate
deriving DecidableEq

/-- `app/models/response.py` `PlaceType` (a `str` enum in the source). -/
inductive PlaceType
  | street_address
  | establishment
  | locality
  | administrative
  | point_of_interest
deriving DecidableEq

/-- The string value of a `PlaceType` member (it is a `str` enum). -/
def PlaceType.value : PlaceType → String
  | .street_address => "street_address"
  | .establishment => "establishment"
  | .locality => "locality"
  | .administrative => "administrative"
  | .point_of_interest => "point_of_interest"

/-- `app/models/response.py` `AddressComponents`: all fields optional,
defaulting to `None`. -/
structure AddressComponents where
  houseNumber : Option String := none
  buildingName : Option String := none
  street : Option String := none
  subLocality : Option String := none
  locality : Option String := none
  subDistrict : Option String := none
  district : Option String := none
  city : Option String := none
  state : Option String := none
  stateCode : Option String := none
  country : Option String := none
  countryCode : Option String := none
  pincode : Option String := none
  area : Option String := none
  region : Option String := none
deriving DecidableEq

/-- `app/models/response.py` `CoordinatesResponse`. -/
structure CoordinatesResponse where
  latitude : ℚ
  longitude : ℚ
  accuracy : AccuracyLevel
deriving DecidableEq

/-- `app/models/response.py` `Address`. -/
structure Address where
  fullAddress : String
  formattedAddress : String
  shortAddress : String
  components : AddressComponents
  coordinates : CoordinatesResponse
  placeType : PlaceType
  confidence : ℚ
  timezone : Option String := none
deriving DecidableEq

/-- `app/models/response.py` `Metadata` (`lastUpdated` omitted, see header). -/
structure Metadata where
  source : String
  processingTime : String
  cached : Bool
deriving DecidableEq

/-- `app/models/response.py` `LocationData`. -/
structure LocationData where
  address : Address
  metadata : Metadata
deriving DecidableEq

/-- The `{"code": ..., "message": ...}` error dict used in responses. -/
structure ErrorInfo where
  code : String
  message : String
deriving DecidableEq

/-- `app/models/response.py` `LocationResponse` (`timestamp`/`requestId`
omitted, see header; `coordinates` is the echoed request pair). -/
structure LocationResponse where
  success : Bool := true
  data : Option LocationData := none
  error : Option ErrorInfo := none
  coordinates : Option (ℚ × ℚ) := none
deriving DecidableEq

/-- `app/models/response.py` `BatchLocationResponse`
(`timestamp` omitted, see header). -/
structure BatchLocationResponse where
  success : Bool := true
  total_requests : ℕ
  successful_requests : ℕ
  results : List LocationResponse
deriving DecidableEq

/-- Python truthiness of an optional string: `None` and `""` are falsy. -/
def pyTruthy : Option String → Bool
  | none => false
  | some s => s ≠ ""

/-- Python `a or b` on optional strings: `a` if `a` is truthy, else `b`
verbatim. -/
def pyOr (a b : Option String) : Option String :=
  if pyTruthy a then a else b

/-! ## Settings (`app/config.py`) -/

/-- `settings.CACHE_TTL_DEFAULT` (seconds). -/
def CACHE_TTL_DEFAULT : ℕ := 86400

/-- `settings.CACHE_PRECISION` (decimal digits for cache-key rounding). -/
def CACHE_PRECISION : ℕ := 4

/-! ## Cache (`app/services/cache.py`) -/

/-- Python `round` on a rational: round half to even (banker's rounding),
the semantics of `round(float)` in the source. -/
def pyRound (q : ℚ) : ℤ :=
  let f := ⌊q⌋
  let r := q - (f : ℚ)
  if r < 1/2 then f
  else if 1/2 < r then f + 1
  else if f % 2 = 0 then f else f + 1

/-- A cache key.  The source builds the string
`f"location:{rounded_lat}:{rounded_lng}:{language}"`; distinct rounded
rationals yield distinct float reprs, so the triple of the two rounded
coordinates and the language is a faithful model of the key. -/
abbrev CacheKey := ℚ × ℚ × String

/-- The dict stored under a key: the response's `.dict()` plus the
`cached_at` / `cache_ttl` metadata added by `set_location`. -/
structure CachedDict where
  response : LocationResponse
  cached_at : ℕ
  cache_ttl : ℕ
deriving DecidableEq

/-- One `_cache_store` value: `{'data': ..., 'expires_at': ...}`. -/
structure CacheEntry where
  data : CachedDict
  expires_at : ℕ
deriving DecidableEq

/-- The module-level `_cache_store` dict. -/
def CacheStore := CacheKey → Option CacheEntry

/-- The initially empty store. -/
def CacheStore.empty : CacheStore := fun _ => none

/-- `store[key] = entry` (insert or overwrite). -/
def CacheStore.set (store : CacheStore) (k : CacheKey) (e : CacheEntry) : CacheStore :=
  fun q => if q = k then some e else store q

/-- `del store[key]`. -/
def CacheStore.erase (store : CacheStore) (k : CacheKey) : CacheStore :=
  fun q => if q = k then none else store q

/-- `CacheService.generate_cache_key`: round both coordinates to
`CACHE_PRECISION` decimal digits (`round(x * 10^p) / 10^p`) and pair them
with the language. -/
def CacheService.generate_cache_key (lat lng : ℚ) (language : String) : CacheKey :=
  let p : ℚ := ((10 : ℕ) ^ CACHE_PRECISION : ℕ)
  ((pyRound (lat * p) : ℚ) / p, (pyRound (lng * p) : ℚ) / p, language)

/-- `CacheService.get_cache_ttl`: place-type keyed TTL table with
`settings.CACHE_TTL_DEFAULT` as the fallback (`PlaceType` is a `str`
enum, so the dict lookup compares by string value). -/
def CacheService.get_cache_ttl (place_type : String) : ℕ :=
  if place_type = "street_address" then 86400
  else if place_type = "locality" then 604800
  else if place_type = "administrative" then 2592000
  else if place_type = "establishment" then 86400
  else if place_type = "point_of_interest" then 86400
  else CACHE_TTL_DEFAULT

/-- `CacheService.get_location`: build the key; on a present entry return
its data when `now < expires_at`, otherwise delete the expired entry and
miss; on an absent key miss.  Returns the result and the (possibly
updated) store. -/
def CacheService.get_location (store : CacheStore) (now : ℕ) (lat lng : ℚ)
    (language : String) : Option CachedDict × CacheStore :=
  let cache_key := CacheService.generate_cache_key lat lng language
  match store cache_key with
  | some cached_item =>
      if now < cached_item.expires_at then (some cached_item.data, store)
      else (none, store.erase cache_key)
  | none => (none, store)

/-- `CacheService.set_location`: TTL from the place type when one is
passed and truthy, else the default; store the data (with `cached_at` and
`cache_ttl` added) under the bucket key with
`expires_at = now + ttl`.  Returns `True` and the updated store. -/
def CacheService.set_location (store : CacheStore) (now : ℕ) (lat lng : ℚ)
    (language : String) (data : LocationResponse) (place_type : Option String) :
    Bool × CacheStore :=
  let cache_key := CacheService.generate_cache_key lat lng language
  let ttl : ℕ :=
    match place_type with
    | some pt => if pt = "" then CACHE_TTL_DEFAULT else CacheService.get_cache_ttl pt
    | none => CACHE_TTL_DEFAULT
  let cache_data : CachedDict := { response := data, cached_at := now, cache_ttl := ttl }
  (true, store.set cache_key { data := cache_data, expires_at := now + ttl })

/-! ## Validation (`app/services/validation.py`) -/

/-- `ValidationService.validate_coordinates`: raises `ValueError` (here
`Except.error`) when a coordinate is out of range. -/
def ValidationService.validate_coordinates (lat lng : ℚ) : Except String Unit :=
  if ¬(-90 ≤ lat ∧ lat ≤ 90) then
    Except.error "Latitude must be between -90 and 90 degrees"
  else if ¬(-180 ≤ lng ∧ lng ≤ 180) then
    Except.error "Longitude must be between -180 and 180 degrees"
  else Except.ok ()

/-! ## Geocoding service (`app/services/geocoding.py`) -/

/-- One element of a Google Maps `address_components` array. -/
structure GoogleComponent where
  types : List String := []
  long_name : Option String := none
  short_name : Option String := none
deriving DecidableEq

/-- The first Google Maps result (`data["results"][0]`), restricted to the
fields the parser reads. -/
structure GoogleRaw where
  formatted_address : Option String := none
  address_components : List GoogleComponent := []
deriving DecidableEq

/-- The `address` sub-object of a Nominatim response, restricted to the
fields the parser reads. -/
structure NominatimAddress where
  road : Option String := none
  suburb : Option String := none
  neighbourhood : Option String := none
  city : Option String := none
  town : Option String := none
  village : Option String := none
  state : Option String := none
  country : Option String := none
  country_code : Option String := none
  postcode : Option String := none
deriving DecidableEq

/-- A Nominatim response, restricted to the fields the parser reads. -/
structure NominatimRaw where
  display_name : Option String := none
  address : NominatimAddress := {}
deriving DecidableEq

/-- One element of a Mapbox `context` array. -/
structure MapboxContextItem where
  id : String := ""
  text : Option String := none
  short_code : Option String := none
deriving DecidableEq

/-- The first Mapbox feature (`data["features"][0]`), restricted to the
fields the parser reads (`properties_address` is `properties.get("address")`). -/
structure MapboxRaw where
  place_name : Option String := none
  context : List MapboxContextItem := []
  properties_address : Option String := none
deriving DecidableEq

/-- One iteration of the `for component in address_components` loop of
`_parse_google_maps_response`: the if/elif chain assigns into the
components dict, later components overwriting earlier ones. -/
def googleComponentStep (acc : AddressComponents) (component : GoogleComponent) :
    AddressComponents :=
  let types := component.types
  if types.contains "route" then
    { acc with street := component.long_name }
  else if types.contains "sublocality_level_1" || types.contains "sublocality" then
    { acc with locality := component.long_name }
  else if types.contains "locality" then
    { acc with city := component.long_name }
  else if types.contains "administrative_area_level_1" then
    { acc with state := component.long_name }
  else if types.contains "country" then
    { acc with country := component.long_name, countryCode := component.short_name }
  else if types.contains "postal_code" then
    { acc with pincode := component.long_name }
  else acc

/-- `GeocodingService._parse_google_maps_response`. -/
def GeocodingService._parse_google_maps_response (data : GoogleRaw) :
    AddressComponents × String :=
  let formatted_address := data.formatted_address.getD "Address not available"
  (data.address_components.foldl googleComponentStep {}, formatted_address)

/-- `GeocodingService._parse_nominatim_response`: `or`-chains on the
nested `address.*` fields, `country_code` uppercased when truthy. -/
def GeocodingService._parse_nominatim_response (data : NominatimRaw) :
    AddressComponents × String :=
  let formatted_address := data.display_name.getD "Address not available"
  let address := data.address
  let components : AddressComponents :=
    { street := address.road
      locality := pyOr address.suburb address.neighbourhood
      city := pyOr address.city (pyOr address.town address.village)
      state := address.state
      country := address.country
      countryCode :=
        if pyTruthy address.country_code then
          some ((address.country_code.getD "").toUpper)
        else none
      pincode := address.postcode }
  (components, formatted_address)

/-- One iteration of the `for item in context` loop of
`_parse_mapbox_response`: match the `id` by prefix. -/
def mapboxContextStep (acc : AddressComponents) (item : MapboxContextItem) :
    AddressComponents :=
  if item.id.startsWith "place" then
    { acc with city := item.text }
  else if item.id.startsWith "region" then
    { acc with state := item.text }
  else if item.id.startsWith "country" then
    { acc with country := item.text,
               countryCode := some ((item.short_code.getD "").toUpper) }
  else if item.id.startsWith "postcode" then
    { acc with pincode := item.text }
  else acc

/-- `GeocodingService._parse_mapbox_response`. -/
def GeocodingService._parse_mapbox_response (data : MapboxRaw) :
    AddressComponents × String :=
  let formatted_address := data.place_name.getD "Address not available"
  let base : AddressComponents := { street := data.properties_address }
  (data.context.foldl mapboxContextStep base, formatted_address)

/-- The raw payload handed to `_create_location_data`, tagged by the
provider that produced it (`reverse_geocode` always pairs the `source`
string with the matching payload shape, so the unknown-source default
branch of the source is unreachable). -/
inductive RawData
  | google (g : GoogleRaw)
  | mapbox (m : MapboxRaw)
  | nominatim (n : NominatimRaw)
deriving DecidableEq

/-- The `source` string passed alongside each payload. -/
def RawData.source : RawData → String
  | .google _ => "google_maps"
  | .mapbox _ => "mapbox"
  | .nominatim _ => "nominatim"

/-- `GeocodingService._create_location_data`: dispatch the parse on the
source, then build the `Address` with the fixed placeholder coordinates
(0, 0, medium), place type `locality` and confidence 0.8, and the
`Metadata` with `cached=False`. -/
def GeocodingService._create_location_data (raw_data : RawData)
    (processing_time : String) : LocationData :=
  let parsed :=
    match raw_data with
    | .google g => GeocodingService._parse_google_maps_response g
    | .nominatim n => GeocodingService._parse_nominatim_response n
    | .mapbox m => GeocodingService._parse_mapbox_response m
  let components := parsed.1
  let formatted_address := parsed.2
  let address : Address :=
    { fullAddress := formatted_address
      formattedAddress := formatted_address
      shortAddress :=
        if formatted_address.length > 50 then formatted_address.take 50 ++ "..."
        else formatted_address
      components := components
      coordinates := { latitude := 0, longitude := 0, accuracy := AccuracyLevel.medium }
      placeType := PlaceType.locality
      confidence := 0.8 }
  let metadata : Metadata :=
    { source := raw_data.source
      processingTime := processing_time
      cached := false }
  { address := address, metadata := metadata }

/-- Outcome of one provider call: a parsed payload (`ok`), an affirmative
"no result" (the `return None` paths), or a raised exception (`err`:
transport failure, non-2xx status, malformed payload, timeout). -/
inductive Outcome (α : Type)
  | ok (result : α)
  | empty
  | err
deriving DecidableEq

/-- Whether an outcome is a parsed payload. -/
def Outcome.isOk {α : Type} : Outcome α → Bool
  | .ok _ => true
  | _ => false

/-- The environment seen by `GeocodingService.reverse_geocode`: the
truthiness of the two credential settings and, for each provider, an
oracle giving the outcome of its HTTP call at given request parameters. -/
structure Env where
  GOOGLE_MAPS_API_KEY : Bool
  MAPBOX_ACCESS_TOKEN : Bool
  google : ℚ → ℚ → String → Outcome GoogleRaw
  mapbox : ℚ → ℚ → String → Outcome MapboxRaw
  nominatim : ℚ → ℚ → String → Outcome NominatimRaw

/-- The all-services-failed envelope returned when every attempted
provider raised or returned no result. -/
def GeocodingService.allFailed (lat lng : ℚ) : LocationResponse :=
  { success := false
    data := none
    error := some { code := "GEOCODING_FAILED"
                    message := "All geocoding services failed" }
    coordinates := some (lat, lng) }

/-- The success envelope built from one provider's payload. -/
def GeocodingService.successResponse (lat lng : ℚ) (raw : RawData)
    (processing_time : String) : LocationResponse :=
  { success := true
    data := some (GeocodingService._create_location_data raw processing_time)
    error := none
    coordinates := some (lat, lng) }

/-- The Nominatim attempt (final fallback; no credential gate): a parsed
payload succeeds, anything else yields the all-failed envelope.
`attempted` accumulates the providers whose HTTP call was issued. -/
def GeocodingService.nominatimStage (env : Env) (lat lng : ℚ)
    (language processing_time : String) (attempted : List String) :
    LocationResponse × List String :=
  match env.nominatim lat lng language with
  | Outcome.ok n =>
      (GeocodingService.successResponse lat lng (RawData.nominatim n) processing_time,
       attempted ++ ["nominatim"])
  | _ => (GeocodingService.allFailed lat lng, attempted ++ ["nominatim"])

/-- The Mapbox attempt: only issued when `MAPBOX_ACCESS_TOKEN` is truthy;
on a parsed payload succeed, otherwise fall through to Nominatim. -/
def GeocodingService.mapboxStage (env : Env) (lat lng : ℚ)
    (language processing_time : String) (attempted : List String) :
    LocationResponse × List String :=
  if env.MAPBOX_ACCESS_TOKEN then
    match env.mapbox lat lng language with
    | Outcome.ok m =>
        (GeocodingService.successResponse lat lng (RawData.mapbox m) processing_time,
         attempted ++ ["mapbox"])
    | _ => GeocodingService.nominatimStage env lat lng language processing_time
             (attempted ++ ["mapbox"])
  else GeocodingService.nominatimStage env lat lng language processing_time attempted

/-- `GeocodingService.reverse_geocode`: Google Maps first (only when
`GOOGLE_MAPS_API_KEY` is truthy), then Mapbox, then Nominatim; first
parsed payload wins; exhaustion yields the all-failed envelope.  Also
returns the list of providers whose HTTP call was issued, in order.
`processing_time` stands for the opaque diagnostic duration string. -/
def GeocodingService.reverse_geocode (env : Env) (lat lng : ℚ)
    (language processing_time : String) : LocationResponse × List String :=
  if env.GOOGLE_MAPS_API_KEY then
    match env.google lat lng language with
    | Outcome.ok g =>
        (GeocodingService.successResponse lat lng (RawData.google g) processing_time,
         ["google_maps"])
    | _ => GeocodingService.mapboxStage env lat lng language processing_time
             ["google_maps"]
  else GeocodingService.mapboxStage env lat lng language processing_time []

/-! ## Request models (`app/models/request.py`) -/

/-- `Coordinates`: a batch item after pydantic validation. -/
structure Coordinates where
  latitude : ℚ
  longitude : ℚ
deriving DecidableEq

/-- Pydantic construction of `Coordinates`: the `ge`/`le` bounds on both
fields are enforced at request-parse time, before the endpoint body runs. -/
def Coordinates.parse (latitude longitude : ℚ) : Option Coordinates :=
  if -90 ≤ latitude ∧ latitude ≤ 90 ∧ -180 ≤ longitude ∧ longitude ≤ 180 then
    some { latitude := latitude, longitude := longitude }
  else none

/-- `BatchLocationRequest` after pydantic validation. -/
structure BatchLocationRequest where
  locations : List Coordinates
  language : String
deriving DecidableEq

/-- Pydantic validation of the `locations` list: every item must pass the
`Coordinates` bounds; one failing item rejects the whole list. -/
def parseAllCoordinates : List (ℚ × ℚ) → Option (List Coordinates)
  | [] => some []
  | pr :: rest =>
      match Coordinates.parse pr.1 pr.2 with
      | some c => (parseAllCoordinates rest).map (fun cs => c :: cs)
      | none => none

/-- Pydantic construction of `BatchLocationRequest`: every item must pass
the `Coordinates` bounds and the list must respect `max_items=100`;
otherwise the whole request is rejected with a validation error. -/
def BatchLocationRequest.parse (raw : List (ℚ × ℚ)) (language : String) :
    Option BatchLocationRequest :=
  match parseAllCoordinates raw with
  | some locations =>
      if locations.length ≤ 100 then some { locations := locations, language := language }
      else none
  | none => none

/-! ## API endpoints (`app/api/v1/location.py`) -/

/-- An `HTTPException` raised by an endpoint (or by request parsing). -/
structure HttpError where
  status : ℕ
  detail : String
deriving DecidableEq

/-- `POST /api/v1/location/reverse`: validate, consult the cache (a hit
returns `LocationResponse(**cached_result)`, i.e. the stored envelope),
on a miss call the geocoding service and cache its envelope — with no
`place_type` argument — then return it. -/
def api.reverse_geocode (env : Env) (store : CacheStore) (now : ℕ)
    (lat lng : ℚ) (language processing_time : String) :
    Except HttpError LocationResponse × CacheStore :=
  match ValidationService.validate_coordinates lat lng with
  | Except.error e => (Except.error { status := 400, detail := e }, store)
  | Except.ok _ =>
    match CacheService.get_location store now lat lng language with
    | (some cached_result, store1) => (Except.ok cached_result.response, store1)
    | (none, store1) =>
        let location_response :=
          (GeocodingService.reverse_geocode env lat lng language processing_time).1
        (Except.ok location_response,
         (CacheService.set_location store1 now lat lng language location_response none).2)

/-- One iteration of the `for location in request.locations` loop of the
batch endpoint: append exactly one result (per-item `ValueError` becomes
an `INVALID_COORDINATES` failure entry) and thread the cache store.  The
generic `except Exception` branch (`GEOCODING_ERROR`) is unreachable in
the model, which has no other exception source. -/
def api.batch_item (env : Env) (language processing_time : String) (now : ℕ)
    (acc : List LocationResponse × CacheStore) (location : Coordinates) :
    List LocationResponse × CacheStore :=
  match ValidationService.validate_coordinates location.latitude location.longitude with
  | Except.error e =>
      (acc.1 ++ [{ success := false
                   data := none
                   error := some { code := "INVALID_COORDINATES", message := e }
                   coordinates := some (location.latitude, location.longitude) }],
       acc.2)
  | Except.ok _ =>
    match CacheService.get_location acc.2 now location.latitude location.longitude language with
    | (some cached_result, store1) => (acc.1 ++ [cached_result.response], store1)
    | (none, store1) =>
        let location_response :=
          (GeocodingService.reverse_geocode env location.latitude location.longitude
            language processing_time).1
        (acc.1 ++ [location_response],
         (CacheService.set_location store1 now location.latitude location.longitude
           language location_response none).2)

/-- `POST /api/v1/location/reverse/batch` (endpoint body, after request
parsing): reject a batch above 100 items with a 400 before any per-item
work, otherwise process the items sequentially in input order and count
the successes. -/
def api.batch_reverse_geocode (env : Env) (store : CacheStore) (now : ℕ)
    (request : BatchLocationRequest) (processing_time : String) :
    Except HttpError BatchLocationResponse × CacheStore :=
  if request.locations.length > 100 then
    (Except.error { status := 400, detail := "Batch size cannot exceed 100 locations" },
     store)
  else
    let r := request.locations.foldl
      (api.batch_item env request.language processing_time now) ([], store)
    let successful_results := (r.1.filter (fun x => x.success)).length
    (Except.ok { success := true
                 total_requests := request.locations.length
                 successful_requests := successful_results
                 results := r.1 },
     r.2)

/-- The full batch pipeline: pydantic request parsing (422 on failure)
followed by the endpoint body. -/
def api.handle_batch (env : Env) (store : CacheStore) (now : ℕ)
    (raw : List (ℚ × ℚ)) (language processing_time : String) :
    Except HttpError BatchLocationResponse × CacheStore :=
  match BatchLocationRequest.parse raw language with
  | some request => api.batch_reverse_geocode env store now request processing_time
  | none => (Except.error { status := 422, detail := "validation error" }, store)

/-! ## Helper observations used by several claims -/

/-- Extract the payload of a non-error endpoint result. -/
def respOf (x : Except HttpError LocationResponse) : Option LocationResponse :=
  match x with
  | Except.ok r => some r
  | Except.error _ => none

/-- The `metadata.cached` flag of a response's data, when present. -/
def cachedFlag (r : LocationResponse) : Option Bool :=
  r.data.map (fun d => d.metadata.cached)

/-- An environment with no Google key, a Mapbox token whose call always
returns the payload `m`, and arbitrary other oracles. -/
def mapboxOnlyEnv (m : MapboxRaw) (google : ℚ → ℚ → String → Outcome GoogleRaw)
    (nominatim : ℚ → ℚ → String → Outcome NominatimRaw) : Env :=
  { GOOGLE_MAPS_API_KEY := false
    MAPBOX_ACCESS_TOKEN := true
    google := google
    mapbox := fun _ _ _ => Outcome.ok m
    nominatim := nominatim }

/-- A fully-concrete environment for evaluation: no credentials, and
every provider call raises. -/
def noProviderEnv : Env :=
  { GOOGLE_MAPS_API_KEY := false
    MAPBOX_ACCESS_TOKEN := false
    google := fun _ _ _ => Outcome.err
    mapbox := fun _ _ _ => Outcome.err
    nominatim := fun _ _ _ => Outcome.err }

/-- A fully-concrete environment where only Mapbox is configured and its
call returns the default (empty-fields) feature. -/
def demoEnv : Env :=
  mapboxOnlyEnv {} (fun _ _ _ => Outcome.err) (fun _ _ _ => Outcome.err)

/-- First call of the idempotence scenario: empty cache, time 0. -/
def demoRun1 : Except HttpError LocationResponse × CacheStore :=
  api.reverse_geocode demoEnv CacheStore.empty 0 1 2 "en" "0.010s"

/-- Second call of the idempotence scenario: same inputs, time 10. -/
def demoRun2 : Except HttpError LocationResponse × CacheStore :=
  api.reverse_geocode demoEnv demoRun1.2 10 1 2 "en" "0.004s"

/-! ## General lemmas about the embedding -/

/-- Reading a bucket just written returns the written entry. -/
theorem CacheStore.set_apply_same (store : CacheStore) (k : CacheKey) (e : CacheEntry) :
    (store.set k e) k = some e := by
  simp [CacheStore.set]

/-- Reading a bucket just deleted misses. -/
theorem CacheStore.erase_apply_same (store : CacheStore) (k : CacheKey) :
    (store.erase k) k = none := by
  simp [CacheStore.erase]

/-- In-range coordinates pass `validate_coordinates`. -/
theorem validate_coordinates_ok (lat lng : ℚ)
    (hlat : -90 ≤ lat ∧ lat ≤ 90) (hlng : -180 ≤ lng ∧ lng ≤ 180) :
    ValidationService.validate_coordinates lat lng = Except.ok () := by
  unfold ValidationService.validate_coordinates
  rw [if_neg (not_not_intro hlat), if_neg (not_not_intro hlng)]

/-- A lookup in the empty store misses and leaves the store unchanged. -/
theorem get_location_empty (now : ℕ) (lat lng : ℚ) (language : String) :
    CacheService.get_location CacheStore.empty now lat lng language =
      (none, CacheStore.empty) := by
  simp [CacheService.get_location, CacheStore.empty]

/-- A lookup of a freshly written bucket hits while `now < expires_at`,
returning the stored dict and leaving the store unchanged. -/
theorem get_location_set_hit (store : CacheStore) (now : ℕ) (lat lng : ℚ)
    (language : String) (e : CacheEntry) (h : now < e.expires_at) :
    CacheService.get_location
      (store.set (CacheService.generate_cache_key lat lng language) e)
      now lat lng language =
    (some e.data, store.set (CacheService.generate_cache_key lat lng language) e) := by
  simp only [CacheService.get_location, CacheStore.set_apply_same]
  simp [h]

/-- A lookup of a present-but-expired bucket misses and evicts it. -/
theorem get_location_set_expired (store : CacheStore) (now : ℕ) (lat lng : ℚ)
    (language : String) (e : CacheEntry) (h : ¬ now < e.expires_at) :
    CacheService.get_location
      (store.set (CacheService.generate_cache_key lat lng language) e)
      now lat lng language =
    (none,
     (store.set (CacheService.generate_cache_key lat lng language) e).erase
       (CacheService.generate_cache_key lat lng language)) := by
  simp only [CacheService.get_location, CacheStore.set_apply_same]
  simp [h]

/-- The locality TTL is 7 days. -/
theorem get_cache_ttl_locality : CacheService.get_cache_ttl "locality" = 604800 := by
  simp [CacheService.get_cache_ttl]

/-- `set_location` with a truthy place type writes the bucket with
`expires_at = now + TTL(place type)` — the TTL depends on nothing else. -/
theorem set_location_place_type (store : CacheStore) (now : ℕ) (lat lng : ℚ)
    (language : String) (data : LocationResponse) (pt : String) (hpt : pt ≠ "") :
    (CacheService.set_location store now lat lng language data (some pt)).2 =
      store.set (CacheService.generate_cache_key lat lng language)
        { data := { response := data, cached_at := now
                    cache_ttl := CacheService.get_cache_ttl pt }
          expires_at := now + CacheService.get_cache_ttl pt } := by
  simp [CacheService.set_location, hpt]

/-- `set_location` without a place type writes the bucket with the
default TTL. -/
theorem set_location_no_place_type (store : CacheStore) (now : ℕ) (lat lng : ℚ)
    (language : String) (data : LocationResponse) :
    (CacheService.set_location store now lat lng language data none).2 =
      store.set (CacheService.generate_cache_key lat lng language)
        { data := { response := data, cached_at := now, cache_ttl := CACHE_TTL_DEFAULT }
          expires_at := now + CACHE_TTL_DEFAULT } := by
  simp [CacheService.set_location]

/-- Every result of the orchestrator is either the all-failed envelope or
a success envelope built from a single provider's payload. -/
theorem nominatimStage_spec (env : Env) (lat lng : ℚ) (language pt : String)
    (attempted : List String) :
    (GeocodingService.nominatimStage env lat lng language pt attempted).1 =
      GeocodingService.allFailed lat lng ∨
    ∃ raw, (GeocodingService.nominatimStage env lat lng language pt attempted).1 =
      GeocodingService.successResponse lat lng raw pt := by
  unfold GeocodingService.nominatimStage
  cases env.nominatim lat lng language with
  | ok n => exact Or.inr ⟨RawData.nominatim n, rfl⟩
  | empty => exact Or.inl rfl
  | err => exact Or.inl rfl

/-- As `nominatimStage_spec`, one stage earlier. -/
theorem mapboxStage_spec (env : Env) (lat lng : ℚ) (language pt : String)
    (attempted : List String) :
    (GeocodingService.mapboxStage env lat lng language pt attempted).1 =
      GeocodingService.allFailed lat lng ∨
    ∃ raw, (GeocodingService.mapboxStage env lat lng language pt attempted).1 =
      GeocodingService.successResponse lat lng raw pt := by
  unfold GeocodingService.mapboxStage
  by_cases hm : env.MAPBOX_ACCESS_TOKEN
  · rw [if_pos hm]
    cases env.mapbox lat lng language with
    | ok m => exact Or.inr ⟨RawData.mapbox m, rfl⟩
    | empty => exact nominatimStage_spec env lat lng language pt (attempted ++ ["mapbox"])
    | err => exact nominatimStage_spec env lat lng language pt (attempted ++ ["mapbox"])
  · rw [if_neg hm]
    exact nominatimStage_spec env lat lng language pt attempted

/-- Every orchestrator run yields either the all-failed envelope or a
success envelope built from a single provider's payload (first success
wins; results of different providers are never merged). -/
theorem reverse_geocode_spec (env : Env) (lat lng : ℚ) (language pt : String) :
    (GeocodingService.reverse_geocode env lat lng language pt).1 =
      GeocodingService.allFailed lat lng ∨
    ∃ raw, (GeocodingService.reverse_geocode env lat lng language pt).1 =
      GeocodingService.successResponse lat lng raw pt := by
  unfold GeocodingService.reverse_geocode
  by_cases hg : env.GOOGLE_MAPS_API_KEY
  · rw [if_pos hg]
    cases env.google lat lng language with
    | ok g => exact Or.inr ⟨RawData.google g, rfl⟩
    | empty => exact mapboxStage_spec env lat lng language pt ["google_maps"]
    | err => exact mapboxStage_spec env lat lng language pt ["google_maps"]
  · rw [if_neg hg]
    exact mapboxStage_spec env lat lng language pt []

/-- With neither credential configured and the Nominatim call not
producing a payload, the orchestrator returns the all-failed envelope and
only Nominatim's HTTP call was issued. -/
theorem reverse_geocode_all_fail (env : Env) (lat lng : ℚ) (language pt : String)
    (hg : env.GOOGLE_MAPS_API_KEY = false) (hm : env.MAPBOX_ACCESS_TOKEN = false)
    (hn : (env.nominatim lat lng language).isOk = false) :
    GeocodingService.reverse_geocode env lat lng language pt =
      (GeocodingService.allFailed lat lng, ["nominatim"]) := by
  unfold GeocodingService.reverse_geocode GeocodingService.mapboxStage
    GeocodingService.nominatimStage
  rw [hg, hm]
  cases ho : env.nominatim lat lng language with
  | ok n => rw [ho] at hn; simp [Outcome.isOk] at hn
  | empty => simp
  | err => simp

/-- `_create_location_data` always emits the fixed placeholder place
type, confidence and coordinates, whatever the payload. -/
theorem create_location_data_placeholders (raw : RawData) (pt : String) :
    (GeocodingService._create_location_data raw pt).address.placeType =
      PlaceType.locality ∧
    (GeocodingService._create_location_data raw pt).address.confidence = 0.8 ∧
    (GeocodingService._create_location_data raw pt).address.coordinates =
      { latitude := 0, longitude := 0, accuracy := AccuracyLevel.medium } := by
  cases raw <;> exact ⟨rfl, rfl, rfl⟩

/-- `_create_location_data` always emits `cached := false`. -/
theorem create_location_data_cached (raw : RawData) (pt : String) :
    (GeocodingService._create_location_data raw pt).metadata.cached = false := by
  cases raw <;> rfl

/-- The data of any orchestrator response carries `cached = false`. -/
theorem reverse_geocode_cached_false (env : Env) (lat lng : ℚ) (language pt : String)
    (d : LocationData)
    (hd : ((GeocodingService.reverse_geocode env lat lng language pt).1).data = some d) :
    d.metadata.cached = false := by
  rcases reverse_geocode_spec env lat lng language pt with hfail | ⟨raw, hsucc⟩
  · rw [hfail] at hd
    simp [GeocodingService.allFailed] at hd
  · rw [hsucc] at hd
    simp only [GeocodingService.successResponse, Option.some.injEq] at hd
    rw [← hd]
    exact create_location_data_cached raw pt

/-- A single-coordinate endpoint call on a cache miss returns the
orchestrator's envelope and writes it — with no place type, hence the
default TTL — into the bucket. -/
theorem api_reverse_geocode_miss (env : Env) (store : CacheStore) (now : ℕ)
    (lat lng : ℚ) (language pt : String)
    (hlat : -90 ≤ lat ∧ lat ≤ 90) (hlng : -180 ≤ lng ∧ lng ≤ 180)
    (hmiss : (CacheService.get_location store now lat lng language).1 = none) :
    api.reverse_geocode env store now lat lng language pt =
      (Except.ok (GeocodingService.reverse_geocode env lat lng language pt).1,
       ((CacheService.get_location store now lat lng language).2).set
         (CacheService.generate_cache_key lat lng language)
         { data := { response := (GeocodingService.reverse_geocode env lat lng language pt).1
                     cached_at := now
                     cache_ttl := CACHE_TTL_DEFAULT }
           expires_at := now + CACHE_TTL_DEFAULT }) := by
  unfold api.reverse_geocode
  rw [validate_coordinates_ok lat lng hlat hlng]
  rcases hget : CacheService.get_location store now lat lng language with ⟨o, s1⟩
  rw [hget] at hmiss
  simp only at hmiss
  subst hmiss
  simp [set_location_no_place_type]

/-- A single-coordinate endpoint call on a cache hit returns the stored
envelope and performs no write. -/
theorem api_reverse_geocode_hit (env : Env) (store : CacheStore) (now : ℕ)
    (lat lng : ℚ) (language pt : String) (d : CachedDict) (s2 : CacheStore)
    (hlat : -90 ≤ lat ∧ lat ≤ 90) (hlng : -180 ≤ lng ∧ lng ≤ 180)
    (hget : CacheService.get_location store now lat lng language = (some d, s2)) :
    api.reverse_geocode env store now lat lng language pt =
      (Except.ok d.response, s2) := by
  unfold api.reverse_geocode
  rw [validate_coordinates_ok lat lng hlat hlng, hget]

/-! ## Concrete evaluations used by counterexamples and witnesses -/

/-- The (1, 2) coordinates bucket to themselves. -/
theorem key_1_2 : CacheService.generate_cache_key 1 2 "en" = (1, 2, "en") := by
  norm_num [CacheService.generate_cache_key, pyRound, CACHE_PRECISION]

/-- Bucketing the first coordinate pair of the spec example. -/
theorem key_bangalore_a :
    CacheService.generate_cache_key 12.97139 77.59464 "en" =
      (12.9714, 77.5946, "en") := by
  norm_num [CacheService.generate_cache_key, pyRound, CACHE_PRECISION]

/-- Bucketing the second coordinate pair of the spec example: the
longitude 77.59466 rounds up to the 77.5947 bucket. -/
theorem key_bangalore_b :
    CacheService.generate_cache_key 12.97141 77.59466 "en" =
      (12.9714, 77.5947, "en") := by
  norm_num [CacheService.generate_cache_key, pyRound, CACHE_PRECISION]

/-- (1, 2) passes validation. -/
theorem validate_1_2 : ValidationService.validate_coordinates 1 2 = Except.ok () := by
  norm_num [ValidationService.validate_coordinates]

/-- The response of the demo scenario's first call. -/
def demoResp : LocationResponse :=
  GeocodingService.successResponse 1 2 (RawData.mapbox {}) "0.010s"

/-- The cache entry written by the demo scenario's first call. -/
def demoEntry : CacheEntry :=
  { data := { response := demoResp, cached_at := 0, cache_ttl := 86400 }
    expires_at := 86400 }

/-- In the demo environment the orchestrator succeeds via Mapbox. -/
theorem service_demo :
    GeocodingService.reverse_geocode demoEnv 1 2 "en" "0.010s" =
      (demoResp, ["mapbox"]) := rfl

/-- Full characterization of the demo scenario's first call. -/
theorem demoRun1_eq :
    demoRun1 = (Except.ok demoResp, CacheStore.empty.set (1, 2, "en") demoEntry) := by
  simp [demoRun1, api.reverse_geocode, validate_1_2, get_location_empty, service_demo,
    CacheService.set_location, key_1_2, demoEntry, CACHE_TTL_DEFAULT]

/-- The demo scenario's second call is served from the cache: it returns
the very envelope stored by the first call. -/
theorem demoRun2_eq : demoRun2.1 = Except.ok demoResp := by
  simp [demoRun2, demoRun1_eq, api.reverse_geocode, validate_1_2,
    CacheService.get_location, key_1_2, CacheStore.set, demoEntry]

/-- The all-fail scenario: no provider configured, every call raising. -/
def failRun : Except HttpError LocationResponse × CacheStore :=
  api.reverse_geocode noProviderEnv CacheStore.empty 0 1 2 "en" "0.005s"

/-- In the no-provider environment the orchestrator fails. -/
theorem service_noProvider :
    GeocodingService.reverse_geocode noProviderEnv 1 2 "en" "0.005s" =
      (GeocodingService.allFailed 1 2, ["nominatim"]) := rfl

/-- Full characterization of the all-fail scenario: the failure envelope
is returned and also written into the (1, 2, "en") bucket. -/
theorem failRun_eq :
    failRun = (Except.ok (GeocodingService.allFailed 1 2),
      CacheStore.empty.set (1, 2, "en")
        { data := { response := GeocodingService.allFailed 1 2, cached_at := 0
                    cache_ttl := 86400 }
          expires_at := 86400 }) := by
  simp [failRun, api.reverse_geocode, validate_1_2, get_location_empty,
    service_noProvider, CacheService.set_location, key_1_2, CACHE_TTL_DEFAULT]

/-! ## Batch lemmas -/

/-- Each loop iteration of the batch endpoint appends exactly one result. -/
theorem batch_item_length (env : Env) (language pt : String) (now : ℕ)
    (acc : List LocationResponse × CacheStore) (location : Coordinates) :
    (api.batch_item env language pt now acc location).1.length = acc.1.length + 1 := by
  unfold api.batch_item
  cases ValidationService.validate_coordinates location.latitude location.longitude with
  | error e => simp
  | ok u =>
    rcases CacheService.get_location acc.2 now location.latitude location.longitude
      language with ⟨o, s1⟩
    cases o <;> simp

/-- The batch loop emits one result per input location, in input order. -/
theorem batch_fold_length (env : Env) (language pt : String) (now : ℕ)
    (ls : List Coordinates) (acc : List LocationResponse × CacheStore) :
    (ls.foldl (api.batch_item env language pt now) acc).1.length =
      acc.1.length + ls.length := by
  induction ls generalizing acc with
  | nil => simp
  | cons c cs ih =>
    rw [List.foldl_cons, ih, batch_item_length]
    simp [List.length_cons]
    omega

/-- Pydantic list validation preserves the item count. -/
theorem parseAllCoordinates_length (raw : List (ℚ × ℚ)) (locations : List Coordinates)
    (h : parseAllCoordinates raw = some locations) :
    locations.length = raw.length := by
  induction raw generalizing locations with
  | nil =>
    simp [parseAllCoordinates] at h
    simp [← h]
  | cons pr rest ih =>
    unfold parseAllCoordinates at h
    cases hc : Coordinates.parse pr.1 pr.2 with
    | none => rw [hc] at h; simp at h
    | some c =>
      rw [hc] at h
      cases hrest : parseAllCoordinates rest with
      | none => rw [hrest] at h; simp at h
      | some cs =>
        rw [hrest] at h
        simp at h
        subst h
        simp [ih cs hrest]

/-- Latitude 95 fails the pydantic bounds of `Coordinates`. -/
theorem parse_95 : Coordinates.parse 95 10 = none := by
  norm_num [Coordinates.parse]

/-- (10, 10) passes the pydantic bounds of `Coordinates`. -/
theorem parse_10 :
    Coordinates.parse 10 10 = some { latitude := 10, longitude := 10 } := by
  norm_num [Coordinates.parse]

/-- The 3-item example batch with latitude 95 in the middle fails
request parsing. -/
theorem parseAll_example :
    parseAllCoordinates [((10 : ℚ), (10 : ℚ)), (95, 10), (20, 20)] = none := by
  simp [parseAllCoordinates, parse_10, parse_95]

/-! ## Spec-side combinators (for the normalization claim) -/

/-- First-non-null-wins, as the spec words the fallback chains: a
non-null left operand wins even when it is the empty string. -/
def firstNonNull (a b : Option String) : Option String :=
  match a with
  | some s => some s
  | none => b

/-- Treat the empty string as absent (Python truthiness of `str`). -/
def nullIfEmpty (a : Option String) : Option String :=
  match a with
  | some s => if s = "" then none else some s
  | none => none

/-- Python `or` is first-truthy-wins: the left operand is first filtered
through `nullIfEmpty`. -/
theorem pyOr_firstNonNull (a b : Option String) :
    pyOr a b = firstNonNull (nullIfEmpty a) b := by
  cases a with
  | none => simp [pyOr, pyTruthy, nullIfEmpty, firstNonNull]
  | some s =>
    by_cases hs : s = "" <;>
      simp [pyOr, pyTruthy, nullIfEmpty, firstNonNull, hs]

/-! ## Claim theorems -/

/-- C1 (counterexample): with zero configured providers and Nominatim
raising, the endpoint does return the `GEOCODING_FAILED` failure
envelope — but, contrary to the claim, a cache entry IS written for the
(lat, lng, language) bucket: the endpoint caches unconditionally. -/
theorem all_fail_cache_write_counterexample :
    failRun.1 = Except.ok (GeocodingService.allFailed 1 2) ∧
    (GeocodingService.allFailed 1 2).error =
      some { code := "GEOCODING_FAILED", message := "All geocoding services failed" } ∧
    failRun.2 (1, 2, "en") ≠ none := by
  refine ⟨by rw [failRun_eq], rfl, ?_⟩
  rw [failRun_eq]
  simp [CacheStore.set]

/-- When the Nominatim call yields no payload, the Nominatim stage
produces the all-failed envelope. -/
theorem nominatimStage_all_fail (env : Env) (lat lng : ℚ) (language pt : String)
    (attempted : List String)
    (hn : (env.nominatim lat lng language).isOk = false) :
    (GeocodingService.nominatimStage env lat lng language pt attempted).1 =
      GeocodingService.allFailed lat lng := by
  unfold GeocodingService.nominatimStage
  cases ho : env.nominatim lat lng language with
  | ok n => rw [ho] at hn; simp [Outcome.isOk] at hn
  | empty => rfl
  | err => rfl

/-- When Mapbox is unconfigured or its call yields no payload, and so
does Nominatim, the Mapbox stage produces the all-failed envelope. -/
theorem mapboxStage_all_fail (env : Env) (lat lng : ℚ) (language pt : String)
    (attempted : List String)
    (hm : env.MAPBOX_ACCESS_TOKEN = false ∨ (env.mapbox lat lng language).isOk = false)
    (hn : (env.nominatim lat lng language).isOk = false) :
    (GeocodingService.mapboxStage env lat lng language pt attempted).1 =
      GeocodingService.allFailed lat lng := by
  unfold GeocodingService.mapboxStage
  by_cases hb : env.MAPBOX_ACCESS_TOKEN
  · rw [if_pos hb]
    rcases hm with hm | hm
    · simp [hm] at hb
    · cases ho : env.mapbox lat lng language with
      | ok m => rw [ho] at hm; simp [Outcome.isOk] at hm
      | empty => exact nominatimStage_all_fail env lat lng language pt _ hn
      | err => exact nominatimStage_all_fail env lat lng language pt _ hn
  · rw [if_neg hb]
    exact nominatimStage_all_fail env lat lng language pt _ hn

/-- Whenever each of Google Maps and Mapbox is either unconfigured
(skipped) or attempted without producing a payload, and the
always-attempted Nominatim call produces none either, the orchestrator
returns the all-failed envelope. -/
theorem reverse_geocode_all_fail_any (env : Env) (lat lng : ℚ) (language pt : String)
    (hg : env.GOOGLE_MAPS_API_KEY = false ∨ (env.google lat lng language).isOk = false)
    (hm : env.MAPBOX_ACCESS_TOKEN = false ∨ (env.mapbox lat lng language).isOk = false)
    (hn : (env.nominatim lat lng language).isOk = false) :
    (GeocodingService.reverse_geocode env lat lng language pt).1 =
      GeocodingService.allFailed lat lng := by
  unfold GeocodingService.reverse_geocode
  by_cases hb : env.GOOGLE_MAPS_API_KEY
  · rw [if_pos hb]
    rcases hg with hg | hg
    · simp [hg] at hb
    · cases ho : env.google lat lng language with
      | ok g => rw [ho] at hg; simp [Outcome.isOk] at hg
      | empty => exact mapboxStage_all_fail env lat lng language pt _ hm hn
      | err => exact mapboxStage_all_fail env lat lng language pt _ hm hn
  · rw [if_neg hb]
    exact mapboxStage_all_fail env lat lng language pt _ hm hn

/-- A fully-concrete environment where both credentials ARE configured
but every provider call raises. -/
def allProvidersFailEnv : Env :=
  { GOOGLE_MAPS_API_KEY := true
    MAPBOX_ACCESS_TOKEN := true
    google := fun _ _ _ => Outcome.err
    mapbox := fun _ _ _ => Outcome.err
    nominatim := fun _ _ _ => Outcome.err }

/-- C1 (amended): if no provider is configured, or every attempted
provider raises or returns absent (each of Google Maps and Mapbox is
unconfigured-hence-skipped or attempted without a payload, and the
always-attempted Nominatim call yields none), `geocode` returns the
failure envelope with code `GEOCODING_FAILED` — and a cache entry
holding that failure envelope IS written for the bucket, with the
default TTL. -/
theorem all_fail_returns_failure_and_writes_envelope (env : Env) (store : CacheStore)
    (now : ℕ) (lat lng : ℚ) (language pt : String)
    (hlat : -90 ≤ lat ∧ lat ≤ 90) (hlng : -180 ≤ lng ∧ lng ≤ 180)
    (hg : env.GOOGLE_MAPS_API_KEY = false ∨ (env.google lat lng language).isOk = false)
    (hm : env.MAPBOX_ACCESS_TOKEN = false ∨ (env.mapbox lat lng language).isOk = false)
    (hn : (env.nominatim lat lng language).isOk = false)
    (hmiss : (CacheService.get_location store now lat lng language).1 = none) :
    (api.reverse_geocode env store now lat lng language pt).1 =
      Except.ok (GeocodingService.allFailed lat lng) ∧
    (GeocodingService.allFailed lat lng).error =
      some { code := "GEOCODING_FAILED", message := "All geocoding services failed" } ∧
    (api.reverse_geocode env store now lat lng language pt).2
        (CacheService.generate_cache_key lat lng language) =
      some { data := { response := GeocodingService.allFailed lat lng
                       cached_at := now
                       cache_ttl := CACHE_TTL_DEFAULT }
             expires_at := now + CACHE_TTL_DEFAULT } := by
  have hrun := api_reverse_geocode_miss env store now lat lng language pt hlat hlng hmiss
  have hall := reverse_geocode_all_fail_any env lat lng language pt hg hm hn
  rw [hall] at hrun
  refine ⟨by rw [hrun], rfl, ?_⟩
  rw [hrun]
  exact CacheStore.set_apply_same _ _ _

/-- C1 (witness), exercising the configured-but-all-raising branch. -/
theorem all_fail_returns_failure_and_writes_envelope_witness :
    (api.reverse_geocode allProvidersFailEnv CacheStore.empty 5 1 2 "en" "t").1 =
      Except.ok (GeocodingService.allFailed 1 2) ∧
    (GeocodingService.allFailed 1 2).error =
      some { code := "GEOCODING_FAILED", message := "All geocoding services failed" } ∧
    (api.reverse_geocode allProvidersFailEnv CacheStore.empty 5 1 2 "en" "t").2
        (CacheService.generate_cache_key 1 2 "en") =
      some { data := { response := GeocodingService.allFailed 1 2
                       cached_at := 5
                       cache_ttl := CACHE_TTL_DEFAULT }
             expires_at := 5 + CACHE_TTL_DEFAULT } :=
  all_fail_returns_failure_and_writes_envelope allProvidersFailEnv CacheStore.empty 5 1 2
    "en" "t" (by norm_num) (by norm_num) (Or.inr rfl) (Or.inr rfl) rfl
    (by simp [get_location_empty])

/-- The cached flag of any orchestrator response is never `true`. -/
theorem reverse_geocode_cachedFlag_ne_true (env : Env) (lat lng : ℚ)
    (language pt : String) :
    cachedFlag ((GeocodingService.reverse_geocode env lat lng language pt).1) ≠
      some true := by
  rcases reverse_geocode_spec env lat lng language pt with hfail | ⟨raw, hsucc⟩
  · rw [hfail]
    simp [cachedFlag, GeocodingService.allFailed]
  · rw [hsucc]
    simp [cachedFlag, GeocodingService.successResponse, create_location_data_cached]

/-- C2 (counterexample): in a concrete successful scenario the second
call is served from the cache and returns the identical envelope, but its
`metadata.cached` flag is `false`, not `true` as the claim states — the
stored envelope preserves the original flag and no code sets it. -/
theorem second_call_cached_flag_counterexample :
    demoRun2.1 = demoRun1.1 ∧
    (respOf demoRun2.1).bind cachedFlag = some false := by
  refine ⟨by rw [demoRun2_eq, demoRun1_eq], ?_⟩
  rw [demoRun2_eq]
  rfl

/-- C2 (amended): two consecutive `geocode` calls with identical
(lat, lng, language) within the default TTL window return identical
envelopes (hence identical normalized address content) — but the second
call still reports `cached = false`. -/
theorem repeat_call_identical_content (env : Env) (store : CacheStore)
    (now1 now2 : ℕ) (lat lng : ℚ) (language pt1 pt2 : String)
    (hlat : -90 ≤ lat ∧ lat ≤ 90) (hlng : -180 ≤ lng ∧ lng ≤ 180)
    (hmiss : (CacheService.get_location store now1 lat lng language).1 = none)
    (hwin : now2 < now1 + CACHE_TTL_DEFAULT) :
    (api.reverse_geocode env
        (api.reverse_geocode env store now1 lat lng language pt1).2
        now2 lat lng language pt2).1 =
      (api.reverse_geocode env store now1 lat lng language pt1).1 ∧
    (respOf (api.reverse_geocode env
        (api.reverse_geocode env store now1 lat lng language pt1).2
        now2 lat lng language pt2).1).bind cachedFlag ≠ some true := by
  have h1 := api_reverse_geocode_miss env store now1 lat lng language pt1 hlat hlng hmiss
  have hfst : (api.reverse_geocode env store now1 lat lng language pt1).1 =
      Except.ok (GeocodingService.reverse_geocode env lat lng language pt1).1 := by
    rw [h1]
  have hsnd : (api.reverse_geocode env store now1 lat lng language pt1).2 =
      ((CacheService.get_location store now1 lat lng language).2).set
        (CacheService.generate_cache_key lat lng language)
        { data := { response := (GeocodingService.reverse_geocode env lat lng language pt1).1
                    cached_at := now1
                    cache_ttl := CACHE_TTL_DEFAULT }
          expires_at := now1 + CACHE_TTL_DEFAULT } := by
    rw [h1]
  have hhit := get_location_set_hit
    ((CacheService.get_location store now1 lat lng language).2) now2 lat lng language
    { data := { response := (GeocodingService.reverse_geocode env lat lng language pt1).1
                cached_at := now1
                cache_ttl := CACHE_TTL_DEFAULT }
      expires_at := now1 + CACHE_TTL_DEFAULT } hwin
  have h2 := api_reverse_geocode_hit env _ now2 lat lng language pt2 _ _ hlat hlng hhit
  rw [hsnd, h2, hfst]
  exact ⟨rfl, reverse_geocode_cachedFlag_ne_true env lat lng language pt1⟩

/-- C2 (witness). -/
theorem repeat_call_identical_content_witness :
    demoRun2.1 = demoRun1.1 ∧
    (respOf demoRun2.1).bind cachedFlag ≠ some true :=
  repeat_call_identical_content demoEnv CacheStore.empty 0 10 1 2 "en" "0.010s" "0.004s"
    (by norm_num) (by norm_num) (by simp [get_location_empty])
    (by norm_num [CACHE_TTL_DEFAULT])

/-- C3 (counterexample): a successful geocode stores an entry whose
address has place type `locality`, yet the entry's expiry is
`insertedAt + CACHE_TTL_DEFAULT` (24h), not
`insertedAt + TTL(locality)` (7d): the endpoint never passes the place
type to the cache store. -/
theorem ttl_place_type_counterexample :
    demoRun1.2 (1, 2, "en") = some demoEntry ∧
    (demoEntry.data.response.data.map fun d => d.address.placeType) =
      some PlaceType.locality ∧
    demoEntry.expires_at = demoEntry.data.cached_at + CACHE_TTL_DEFAULT ∧
    CacheService.get_cache_ttl PlaceType.locality.value = 604800 ∧
    demoEntry.expires_at ≠
      demoEntry.data.cached_at + CacheService.get_cache_ttl PlaceType.locality.value := by
  refine ⟨?_, rfl, rfl, get_cache_ttl_locality, ?_⟩
  · rw [demoRun1_eq]
    show CacheStore.empty.set (1, 2, "en") demoEntry (1, 2, "en") = some demoEntry
    exact CacheStore.set_apply_same _ _ _
  · simp only [PlaceType.value, get_cache_ttl_locality]
    decide

/-- C3 (amended): `set_location` with a (truthy) place type does store
`expiresAt = insertedAt + TTL(placeType)`, the TTL depending on nothing
but the place type — but the orchestrating endpoint calls it WITHOUT a
place type, so the entry it persists always carries the default TTL. -/
theorem ttl_from_place_type_but_endpoint_omits_it (env : Env) (store : CacheStore)
    (now : ℕ) (lat lng : ℚ) (language : String) (data : LocationResponse)
    (ptype : String) (pt : String)
    (hpt : ptype ≠ "")
    (hlat : -90 ≤ lat ∧ lat ≤ 90) (hlng : -180 ≤ lng ∧ lng ≤ 180)
    (hmiss : (CacheService.get_location store now lat lng language).1 = none) :
    (CacheService.set_location store now lat lng language data (some ptype)).2
        (CacheService.generate_cache_key lat lng language) =
      some { data := { response := data, cached_at := now
                       cache_ttl := CacheService.get_cache_ttl ptype }
             expires_at := now + CacheService.get_cache_ttl ptype } ∧
    (api.reverse_geocode env store now lat lng language pt).2
        (CacheService.generate_cache_key lat lng language) =
      some { data := { response := (GeocodingService.reverse_geocode env lat lng
                                      language pt).1
                       cached_at := now
                       cache_ttl := CACHE_TTL_DEFAULT }
             expires_at := now + CACHE_TTL_DEFAULT } := by
  constructor
  · rw [set_location_place_type store now lat lng language data ptype hpt]
    exact CacheStore.set_apply_same _ _ _
  · rw [api_reverse_geocode_miss env store now lat lng language pt hlat hlng hmiss]
    exact CacheStore.set_apply_same _ _ _

/-- C3 (witness). -/
theorem ttl_from_place_type_but_endpoint_omits_it_witness :
    (CacheService.set_location CacheStore.empty 0 1 2 "en" demoResp
        (some "locality")).2 (CacheService.generate_cache_key 1 2 "en") =
      some { data := { response := demoResp, cached_at := 0
                       cache_ttl := CacheService.get_cache_ttl "locality" }
             expires_at := 0 + CacheService.get_cache_ttl "locality" } ∧
    (api.reverse_geocode demoEnv CacheStore.empty 0 1 2 "en" "0.010s").2
        (CacheService.generate_cache_key 1 2 "en") =
      some { data := { response := (GeocodingService.reverse_geocode demoEnv 1 2
                                      "en" "0.010s").1
                       cached_at := 0
                       cache_ttl := CACHE_TTL_DEFAULT }
             expires_at := 0 + CACHE_TTL_DEFAULT } :=
  ttl_from_place_type_but_endpoint_omits_it demoEnv CacheStore.empty 0 1 2 "en" demoResp
    "locality" "0.010s" (by decide) (by norm_num) (by norm_num)
    (by simp [get_location_empty])

/-- C4 (counterexample): at the default 4-decimal precision the pairs
(12.97139, 77.59464) and (12.97141, 77.59466) do NOT map to the same
cache key: 77.59464 rounds to the 77.5946 bucket while 77.59466 rounds
to 77.5947. -/
theorem cache_bucketing_counterexample :
    CacheService.generate_cache_key 12.97139 77.59464 "en" ≠
      CacheService.generate_cache_key 12.97141 77.59466 "en" := by
  rw [key_bangalore_a, key_bangalore_b]
  simp only [ne_eq, Prod.mk.injEq, not_and]
  intro h1 h2
  norm_num at h2

/-- C4 (amended): the latitudes 12.97139 and 12.97141 do collapse to the
same 12.9714 bucket, but the longitudes 77.59464 and 77.59466 round to
different buckets, so the two pairs map to different cache keys and a
lookup for the second pair after storing the first is a miss. -/
theorem cache_bucketing_different_keys (e : CacheEntry) (now : ℕ) :
    (CacheService.generate_cache_key 12.97139 77.59464 "en").1 =
      (CacheService.generate_cache_key 12.97141 77.59466 "en").1 ∧
    CacheService.generate_cache_key 12.97139 77.59464 "en" ≠
      CacheService.generate_cache_key 12.97141 77.59466 "en" ∧
    (CacheService.get_location
        (CacheStore.empty.set (CacheService.generate_cache_key 12.97139 77.59464 "en") e)
        now 12.97141 77.59466 "en").1 = none := by
  refine ⟨by rw [key_bangalore_a, key_bangalore_b], ?_, ?_⟩
  · rw [key_bangalore_a, key_bangalore_b]
    simp only [ne_eq, Prod.mk.injEq, not_and]
    intro h1 h2
    norm_num at h2
  · have hne : ((12.9714 : ℚ), (77.5947 : ℚ), "en") ≠ ((12.9714 : ℚ), (77.5946 : ℚ), "en") := by
      simp only [ne_eq, Prod.mk.injEq, not_and]
      intro h1 h2
      norm_num at h2
    simp only [CacheService.get_location, key_bangalore_a, key_bangalore_b]
    simp [CacheStore.set, CacheStore.empty, hne]

/-- C5: with only the second provider (Mapbox) configured and
succeeding, the orchestrator returns a success whose source is
`"mapbox"`, and the only HTTP call issued is Mapbox's: Google Maps is
skipped because it is unconfigured, and Nominatim is never reached
because the first success short-circuits. -/
theorem fallback_second_provider_only (m : MapboxRaw)
    (google : ℚ → ℚ → String → Outcome GoogleRaw)
    (nominatim : ℚ → ℚ → String → Outcome NominatimRaw)
    (lat lng : ℚ) (language pt : String) :
    ((GeocodingService.reverse_geocode (mapboxOnlyEnv m google nominatim)
        lat lng language pt).1).success = true ∧
    (((GeocodingService.reverse_geocode (mapboxOnlyEnv m google nominatim)
        lat lng language pt).1).data.map fun d => d.metadata.source) = some "mapbox" ∧
    (GeocodingService.reverse_geocode (mapboxOnlyEnv m google nominatim)
        lat lng language pt).2 = ["mapbox"] :=
  ⟨rfl, rfl, rfl⟩

/-- C6: an entry stored at time T with place type `locality` is still
returned at T+7d−1s, is treated as absent at exactly T+7d (and evicted
then), and in general the lookup hits exactly while `now < expiresAt`. -/
theorem locality_ttl_boundary (store : CacheStore) (T : ℕ) (lat lng : ℚ)
    (language : String) (data : LocationResponse) :
    (CacheService.get_location
        ((CacheService.set_location store T lat lng language data (some "locality")).2)
        (T + 604800 - 1) lat lng language).1 =
      some { response := data, cached_at := T, cache_ttl := 604800 } ∧
    (CacheService.get_location
        ((CacheService.set_location store T lat lng language data (some "locality")).2)
        (T + 604800) lat lng language).1 = none ∧
    (CacheService.get_location
        ((CacheService.set_location store T lat lng language data (some "locality")).2)
        (T + 604800) lat lng language).2
      (CacheService.generate_cache_key lat lng language) = none ∧
    ∀ t : ℕ, ((CacheService.get_location
        ((CacheService.set_location store T lat lng language data (some "locality")).2)
        t lat lng language).1).isSome = true ↔ t < T + 604800 := by
  have hset : (CacheService.set_location store T lat lng language data (some "locality")).2 =
      store.set (CacheService.generate_cache_key lat lng language)
        { data := { response := data, cached_at := T, cache_ttl := 604800 }
          expires_at := T + 604800 } := by
    rw [set_location_place_type store T lat lng language data "locality" (by decide),
      get_cache_ttl_locality]
  rw [hset]
  refine ⟨?_, ?_, ?_, ?_⟩
  · have h1 := get_location_set_hit store (T + 604800 - 1) lat lng language
      { data := { response := data, cached_at := T, cache_ttl := 604800 }
        expires_at := T + 604800 } (by show T + 604800 - 1 < T + 604800; omega)
    rw [h1]
  · have h1 := get_location_set_expired store (T + 604800) lat lng language
      { data := { response := data, cached_at := T, cache_ttl := 604800 }
        expires_at := T + 604800 } (by show ¬ T + 604800 < T + 604800; omega)
    rw [h1]
  · have h1 := get_location_set_expired store (T + 604800) lat lng language
      { data := { response := data, cached_at := T, cache_ttl := 604800 }
        expires_at := T + 604800 } (by show ¬ T + 604800 < T + 604800; omega)
    rw [h1]
    exact CacheStore.erase_apply_same _ _
  · intro t
    by_cases ht : t < T + 604800
    · have h1 := get_location_set_hit store t lat lng language
        { data := { response := data, cached_at := T, cache_ttl := 604800 }
          expires_at := T + 604800 } ht
      rw [h1]
      simp [ht]
    · have h1 := get_location_set_expired store t lat lng language
        { data := { response := data, cached_at := T, cache_ttl := 604800 }
          expires_at := T + 604800 } ht
      rw [h1]
      simp [ht]

/-- A concrete Nominatim response whose `suburb` is the empty string. -/
def nominatimEmptySuburb : NominatimRaw :=
  { display_name := some "100 Feet Road, Bengaluru"
    address := { suburb := some "", neighbourhood := some "Indiranagar" } }

/-- C7 (counterexample): the Nominatim fallback chains are NOT
first-non-null-wins: with `suburb = ""` (non-null) and
`neighbourhood = "Indiranagar"`, the code's Python `or` skips the
non-null suburb and picks the neighbourhood. -/
theorem nominatim_first_non_null_counterexample :
    (GeocodingService._parse_nominatim_response nominatimEmptySuburb).1.locality ≠
      firstNonNull nominatimEmptySuburb.address.suburb
        nominatimEmptySuburb.address.neighbourhood := by
  decide

/-- C7 (amended): the Nominatim fallback chains are first-TRUTHY-wins
(the empty string counts as absent on the left of each `or`), i.e.
first-non-null-wins after filtering empty strings; the country code is
uppercased exactly when it is non-null and non-empty, else it is null. -/
theorem nominatim_fallback_chains (data : NominatimRaw) :
    (GeocodingService._parse_nominatim_response data).1.locality =
      firstNonNull (nullIfEmpty data.address.suburb) data.address.neighbourhood ∧
    (GeocodingService._parse_nominatim_response data).1.city =
      firstNonNull (nullIfEmpty data.address.city)
        (firstNonNull (nullIfEmpty data.address.town) data.address.village) ∧
    (GeocodingService._parse_nominatim_response data).1.countryCode =
      (nullIfEmpty data.address.country_code).map String.toUpper := by
  refine ⟨?_, ?_, ?_⟩
  · simp [GeocodingService._parse_nominatim_response, pyOr_firstNonNull]
  · simp [GeocodingService._parse_nominatim_response, pyOr_firstNonNull]
  · cases hc : data.address.country_code with
    | none =>
      simp [GeocodingService._parse_nominatim_response, hc, pyTruthy, nullIfEmpty]
    | some s =>
      by_cases hs : s = "" <;>
        simp [GeocodingService._parse_nominatim_response, hc, pyTruthy, nullIfEmpty, hs]

/-- Extract the payload of a non-error batch endpoint result. -/
def batchRespOf (x : Except HttpError BatchLocationResponse) :
    Option BatchLocationResponse :=
  match x with
  | Except.ok r => some r
  | Except.error _ => none

/-- A 3-item batch whose second item has latitude 95 never reaches the
per-item loop: the pydantic bounds on `Coordinates` reject the whole
request with a validation error. -/
theorem batch_invalid_item_rejected (env : Env) (store : CacheStore) (now : ℕ)
    (language pt : String) :
    api.handle_batch env store now [((10 : ℚ), (10 : ℚ)), (95, 10), (20, 20)]
      language pt =
      (Except.error { status := 422, detail := "validation error" }, store) := by
  unfold api.handle_batch BatchLocationRequest.parse
  rw [parseAll_example]

/-- C8 (counterexample): at the concrete 3-item batch with latitude 95
in the middle, the pipeline produces a whole-request validation error —
not a `BatchLocationResponse` with `total_requests = 3` and a per-item
`INVALID_COORDINATES` entry as the claim states. -/
theorem batch_invalid_item_counterexample :
    api.handle_batch noProviderEnv CacheStore.empty 0
      [((10 : ℚ), (10 : ℚ)), (95, 10), (20, 20)] "en" "t" =
      (Except.error { status := 422, detail := "validation error" }, CacheStore.empty) :=
  batch_invalid_item_rejected noProviderEnv CacheStore.empty 0 "en" "t"

/-- The per-item body of the batch loop, as a function of the item and
the cache-store state alone (independent of every other item and of the
results accumulated so far): validate, consult the cache, on a miss call
the geocoding service and cache its envelope without a place type. -/
def api.process_location (env : Env) (language pt : String) (now : ℕ)
    (store : CacheStore) (location : Coordinates) :
    LocationResponse × CacheStore :=
  match ValidationService.validate_coordinates location.latitude location.longitude with
  | Except.error e =>
      ({ success := false
         data := none
         error := some { code := "INVALID_COORDINATES", message := e }
         coordinates := some (location.latitude, location.longitude) }, store)
  | Except.ok _ =>
    match CacheService.get_location store now location.latitude location.longitude language with
    | (some cached_result, store1) => (cached_result.response, store1)
    | (none, store1) =>
        let location_response :=
          (GeocodingService.reverse_geocode env location.latitude location.longitude
            language pt).1
        (location_response,
         (CacheService.set_location store1 now location.latitude location.longitude
           language location_response none).2)

/-- Sequential in-input-order processing: the head of the result list is
the first item's result, and each item is processed with the store state
left by its predecessors. -/
def mapAccumStore (f : CacheStore → Coordinates → LocationResponse × CacheStore) :
    CacheStore → List Coordinates → List LocationResponse × CacheStore
  | store, [] => ([], store)
  | store, location :: rest =>
      let r := f store location
      let rs := mapAccumStore f r.2 rest
      (r.1 :: rs.1, rs.2)

/-- One batch-loop iteration appends exactly the result of
`process_location` on the current store and item. -/
theorem batch_item_process (env : Env) (language pt : String) (now : ℕ)
    (acc : List LocationResponse × CacheStore) (location : Coordinates) :
    api.batch_item env language pt now acc location =
      (acc.1 ++ [(api.process_location env language pt now acc.2 location).1],
       (api.process_location env language pt now acc.2 location).2) := by
  unfold api.batch_item api.process_location
  cases ValidationService.validate_coordinates location.latitude location.longitude with
  | error e => simp
  | ok u =>
    rcases CacheService.get_location acc.2 now location.latitude location.longitude
      language with ⟨o, s1⟩
    cases o <;> simp

/-- The batch loop is exactly the sequential in-order map of
`process_location` over the input list: the i-th result is the
processing of the i-th input coordinate under the store state left by
the previous items. -/
theorem batch_fold_mapAccum (env : Env) (language pt : String) (now : ℕ)
    (ls : List Coordinates) (acc : List LocationResponse × CacheStore) :
    ls.foldl (api.batch_item env language pt now) acc =
      (acc.1 ++ (mapAccumStore (api.process_location env language pt now) acc.2 ls).1,
       (mapAccumStore (api.process_location env language pt now) acc.2 ls).2) := by
  induction ls generalizing acc with
  | nil => simp [mapAccumStore]
  | cons c cs ih =>
    rw [List.foldl_cons, batch_item_process, ih]
    simp [mapAccumStore]

/-- Sequential processing emits one result per input item. -/
theorem mapAccumStore_length (f : CacheStore → Coordinates → LocationResponse × CacheStore)
    (store : CacheStore) (ls : List Coordinates) :
    (mapAccumStore f store ls).1.length = ls.length := by
  induction ls generalizing store with
  | nil => simp [mapAccumStore]
  | cons c cs ih => simp [mapAccumStore, ih]

/-- C8 (amended): the example batch is rejected at request parsing with a
validation error before any per-item work; for any batch that does parse
(within the cap), the endpoint's response is EXACTLY the sequential
in-input-order per-item processing of the list — the results list equals
`mapAccumStore` of `process_location`, whose i-th entry is the i-th
coordinate's result given the store left by its predecessors, so results
appear in input order, one per coordinate, each computed by a per-item
function that no other item's result can influence, and no item's
failure aborts the rest. -/
theorem batch_rejected_at_parse_and_order (env : Env) (store : CacheStore) (now : ℕ)
    (language pt : String) (request : BatchLocationRequest)
    (hcap : request.locations.length ≤ 100) :
    (api.handle_batch env store now [((10 : ℚ), (10 : ℚ)), (95, 10), (20, 20)]
        language pt).1 =
      Except.error { status := 422, detail := "validation error" } ∧
    (api.batch_reverse_geocode env store now request pt).1 =
      Except.ok
        { success := true
          total_requests := request.locations.length
          successful_requests :=
            (((mapAccumStore (api.process_location env request.language pt now)
                store request.locations).1).filter (fun x => x.success)).length
          results := (mapAccumStore (api.process_location env request.language pt now)
            store request.locations).1 } ∧
    (mapAccumStore (api.process_location env request.language pt now)
        store request.locations).1.length = request.locations.length := by
  refine ⟨by rw [batch_invalid_item_rejected], ?_,
    mapAccumStore_length _ _ _⟩
  unfold api.batch_reverse_geocode
  rw [if_neg (by omega), batch_fold_mapAccum]
  simp

/-- C8 (witness). -/
theorem batch_rejected_at_parse_and_order_witness :
    (api.handle_batch noProviderEnv CacheStore.empty 0
        [((10 : ℚ), (10 : ℚ)), (95, 10), (20, 20)] "en" "t").1 =
      Except.error { status := 422, detail := "validation error" } ∧
    (api.batch_reverse_geocode noProviderEnv CacheStore.empty 0
        { locations := [{ latitude := 10, longitude := 10 }], language := "en" } "t").1 =
      Except.ok
        { success := true
          total_requests := 1
          successful_requests :=
            (((mapAccumStore (api.process_location noProviderEnv "en" "t" 0)
                CacheStore.empty [{ latitude := 10, longitude := 10 }]).1).filter
              (fun x => x.success)).length
          results := (mapAccumStore (api.process_location noProviderEnv "en" "t" 0)
            CacheStore.empty [{ latitude := 10, longitude := 10 }]).1 } ∧
    (mapAccumStore (api.process_location noProviderEnv "en" "t" 0)
        CacheStore.empty [{ latitude := 10, longitude := 10 }]).1.length = 1 :=
  batch_rejected_at_parse_and_order noProviderEnv CacheStore.empty 0 "en" "t"
    { locations := [{ latitude := 10, longitude := 10 }], language := "en" }
    (by decide)

/-- C9: a batch of more than 100 coordinates is rejected before any
per-item work: request parsing fails (pydantic `max_items=100`), and even
the endpoint body's own guard returns a 400 with the store untouched —
so no provider call and no cache write happens. -/
theorem batch_cap_rejected (raw : List (ℚ × ℚ)) (language : String) (env : Env)
    (store : CacheStore) (now : ℕ) (request : BatchLocationRequest) (pt : String)
    (h1 : 100 < raw.length) (h2 : 100 < request.locations.length) :
    BatchLocationRequest.parse raw language = none ∧
    api.batch_reverse_geocode env store now request pt =
      (Except.error { status := 400, detail := "Batch size cannot exceed 100 locations" },
       store) := by
  constructor
  · unfold BatchLocationRequest.parse
    cases hp : parseAllCoordinates raw with
    | none => rfl
    | some locations =>
      have hl := parseAllCoordinates_length raw locations hp
      show (if locations.length ≤ 100 then
        some (BatchLocationRequest.mk locations language) else none) = none
      rw [if_neg (by omega)]
  · unfold api.batch_reverse_geocode
    rw [if_pos (by omega)]

/-- C9 (witness). -/
theorem batch_cap_rejected_witness :
    BatchLocationRequest.parse (List.replicate 101 ((0 : ℚ), (0 : ℚ))) "en" = none ∧
    api.batch_reverse_geocode noProviderEnv CacheStore.empty 0
      { locations := List.replicate 101 { latitude := 0, longitude := 0 }
        language := "en" } "t" =
      (Except.error { status := 400, detail := "Batch size cannot exceed 100 locations" },
       CacheStore.empty) :=
  batch_cap_rejected (List.replicate 101 ((0 : ℚ), (0 : ℚ))) "en" noProviderEnv
    CacheStore.empty 0
    { locations := List.replicate 101 { latitude := 0, longitude := 0 }, language := "en" }
    "t" (by simp) (by simp)

/-- C10: every successful orchestrator result — whatever the provider,
payload, coordinates or language — carries the fixed placeholders:
place type `locality`, confidence 0.8, and coordinates (0, 0) with
accuracy `medium`. -/
theorem success_fixed_placeholders (env : Env) (lat lng : ℚ) (language pt : String)
    (h : ((GeocodingService.reverse_geocode env lat lng language pt).1).success = true) :
    (((GeocodingService.reverse_geocode env lat lng language pt).1).data.map
        fun d => d.address.placeType) = some PlaceType.locality ∧
    (((GeocodingService.reverse_geocode env lat lng language pt).1).data.map
        fun d => d.address.confidence) = some 0.8 ∧
    (((GeocodingService.reverse_geocode env lat lng language pt).1).data.map
        fun d => d.address.coordinates) =
      some { latitude := 0, longitude := 0, accuracy := AccuracyLevel.medium } := by
  rcases reverse_geocode_spec env lat lng language pt with hfail | ⟨raw, hsucc⟩
  · rw [hfail] at h
    simp [GeocodingService.allFailed] at h
  · obtain ⟨h1, h2, h3⟩ := create_location_data_placeholders raw pt
    rw [hsucc]
    simp [GeocodingService.successResponse, h1, h2, h3]

/-- C10 (witness). -/
theorem success_fixed_placeholders_witness :
    ((GeocodingService.reverse_geocode demoEnv 1 2 "en" "0.010s").1).success = true ∧
    (((GeocodingService.reverse_geocode demoEnv 1 2 "en" "0.010s").1).data.map
        fun d => d.address.placeType) = some PlaceType.locality ∧
    (((GeocodingService.reverse_geocode demoEnv 1 2 "en" "0.010s").1).data.map
        fun d => d.address.confidence) = some 0.8 ∧
    (((GeocodingService.reverse_geocode demoEnv 1 2 "en" "0.010s").1).data.map
        fun d => d.address.coordinates) =
      some { latitude := 0, longitude := 0, accuracy := AccuracyLevel.medium } :=
  ⟨rfl, success_fixed_placeholders demoEnv 1 2 "en" "0.010s" rfl⟩
